import Mathlib

/-!
Shallow embedding of `src/app.py` (an HTTP relay that acknowledges alerts by
toggling an Airflow variable `twilio_alert_enabled_{dag_id}`), together with
theorems checking the specification's claims against it.

The upstream orchestrator is abstracted as a record of three stateful calls
(PATCH a variable, POST a variable, GET a variable), each of which may raise a
Python-level exception (network failure) or return an HTTP response.  Handlers
are translated line by line from the Flask routes in `src/app.py`.
-/

namespace TeamAck

/-- JSON scalar values appearing in the service's response bodies. -/
inductive JVal where
  | str (s : String)
  | bool (b : Bool)
deriving DecidableEq, Repr

/-- An upstream HTTP response: status code plus its parsed JSON-object body
(the bodies the service inspects are string-valued objects such as
`{"key": ..., "value": ...}`). -/
structure HttpResp where
  status_code : Nat
  body : List (String × String)
deriving DecidableEq, Repr

/-- Python exceptions that can propagate out of an upstream call:
`requests.HTTPError` raised by `raise_for_status` (carrying the offending
response), or a network-level failure such as `ConnectionError`. -/
inductive PyExn where
  | httpError (resp : HttpResp)
  | other (msg : String)
deriving DecidableEq, Repr

/-- `str(e)` on the exceptions we model.  The exact text of
`requests.HTTPError` is abbreviated to the status code; no claim depends on
the text, only on which exception is stringified where. -/
def PyExn.str : PyExn → String
  | .httpError r => toString r.status_code ++ " Error"
  | .other m => m

/-- The upstream variable-store API, state type `σ`: PATCH
`/variables/{key}`, POST `/variables`, GET `/variables/{key}`.  Each call
either raises an exception or yields an `HttpResp`, and may change the
upstream state. -/
structure Upstream (σ : Type) where
  patchVar : σ → String → String → (Except PyExn HttpResp) × σ
  postVar : σ → String → String → (Except PyExn HttpResp) × σ
  getVar : σ → String → (Except PyExn HttpResp) × σ

/-- `requests.Response.raise_for_status` raises exactly for status codes in
[400, 600). -/
def raise_for_status_fails (r : HttpResp) : Bool :=
  decide (400 ≤ r.status_code) && decide (r.status_code < 600)

/-- `set_airflow_variable` from `src/app.py`: PATCH the variable; on 404 fall
back to POST-create; then `raise_for_status` on whichever response is current
and return its JSON body. -/
def set_airflow_variable {σ : Type} (U : Upstream σ) (s : σ) (key value : String) :
    (Except PyExn (List (String × String))) × σ :=
  match U.patchVar s key value with
  | (.error e, s1) => (.error e, s1)
  | (.ok r1, s1) =>
    match (if r1.status_code = 404 then U.postVar s1 key value else (.ok r1, s1)) with
    | (.error e, s2) => (.error e, s2)
    | (.ok r2, s2) =>
      if raise_for_status_fails r2 then (.error (.httpError r2), s2)
      else (.ok r2.body, s2)

/-- A JSON API response from a Flask handler: HTTP status plus JSON body. -/
structure ApiResp where
  status : Nat
  body : List (String × JVal)
deriving DecidableEq, Repr

/-- Python truthiness test `not x` on an optional string: `None` and the
empty string are falsy. -/
def pyFalsy : Option String → Bool
  | none => true
  | some s => s == ""

/-- The JSON body of a POST `/api/acknowledge` request: `req.get("dag_id")`
and `req.get("task_id", "unknown")`. -/
structure AckBody where
  dag_id : Option String
  task_id : Option String
deriving DecidableEq, Repr

/-- Handler `acknowledge_post` (POST `/api/acknowledge`) from `src/app.py`. -/
def acknowledge_post {σ : Type} (U : Upstream σ) (s : σ) (req : AckBody) :
    ApiResp × σ :=
  let task_id := req.task_id.getD "unknown"
  if pyFalsy req.dag_id then
    ({ status := 400,
       body := [("status", .str "error"), ("message", .str "dag_id is required")] }, s)
  else
    let dag_id := req.dag_id.getD ""
    let var_key := "twilio_alert_enabled_" ++ dag_id
    match set_airflow_variable U s var_key "false" with
    | (.ok _, s1) =>
      ({ status := 200,
         body := [("status", .str "success"),
                  ("message", .str ("Alerts paused for DAG '" ++ dag_id ++
                    "' based on acknowledgment from task '" ++ task_id ++ "'.")),
                  ("dag_id", .str dag_id),
                  ("task_id", .str task_id)] }, s1)
    | (.error e, s1) =>
      ({ status := 500,
         body := [("status", .str "error"), ("message", .str e.str)] }, s1)

/-- The rendering of `ACK_PAGE_TEMPLATE`, modelled by the template variables
passed to `render_template_string` (fields not passed are `none`). -/
structure PageResp where
  success : Bool
  dag_id : Option String
  task_id : Option String
  timestamp : Option String
  error : Option String
deriving DecidableEq, Repr

/-- An HTML response from the GET acknowledge handler: rendered page plus
HTTP status. -/
structure PageResult where
  page : PageResp
  status : Nat
deriving DecidableEq, Repr

/-- Handler `acknowledge_get` (GET `/api/acknowledge`) from `src/app.py`;
`now` stands for `datetime.now().strftime(...)`, supplied by the clock. -/
def acknowledge_get {σ : Type} (U : Upstream σ) (s : σ)
    (dag_id task_id : Option String) (now : String) : PageResult × σ :=
  let t := task_id.getD "unknown"
  if pyFalsy dag_id then
    ({ page := { success := false, dag_id := none, task_id := none,
                 timestamp := none, error := some "Missing dag_id parameter" },
       status := 400 }, s)
  else
    let d := dag_id.getD ""
    let var_key := "twilio_alert_enabled_" ++ d
    match set_airflow_variable U s var_key "false" with
    | (.ok _, s1) =>
      ({ page := { success := true, dag_id := some d, task_id := some t,
                   timestamp := some now, error := none },
         status := 200 }, s1)
    | (.error e, s1) =>
      ({ page := { success := false, dag_id := none, task_id := none,
                   timestamp := none, error := some e.str },
         status := 500 }, s1)

/-- `dict.get` with a default: `var_data.get("value", "true")`. -/
def lookupD (l : List (String × String)) (k d : String) : String :=
  match l.lookup k with
  | some v => v
  | none => d

/-- Python's `str.lower()` on the ASCII strings the service stores
(`"true"`/`"false"` and case variants). -/
def strToLower (s : String) : String :=
  ⟨s.data.map Char.toLower⟩

/-- Handler `get_acknowledgment_status` (GET `/api/acknowledge/status/{dag_id}`)
from `src/app.py`. -/
def get_acknowledgment_status {σ : Type} (U : Upstream σ) (s : σ)
    (dag_id : String) : ApiResp × σ :=
  let var_key := "twilio_alert_enabled_" ++ dag_id
  match U.getVar s var_key with
  | (.error e, s1) =>
    ({ status := 500, body := [("success", .bool false), ("error", .str e.str)] }, s1)
  | (.ok r, s1) =>
    if r.status_code = 404 then
      ({ status := 200,
         body := [("dag_id", .str dag_id), ("alerts_enabled", .bool true),
                  ("acknowledged", .bool false)] }, s1)
    else if raise_for_status_fails r then
      ({ status := 500,
         body := [("success", .bool false),
                  ("error", .str (PyExn.httpError r).str)] }, s1)
    else
      let alerts_enabled := strToLower (lookupD r.body "value" "true") == "true"
      ({ status := 200,
         body := [("dag_id", .str dag_id), ("alerts_enabled", .bool alerts_enabled),
                  ("acknowledged", .bool (!alerts_enabled))] }, s1)

/-- Handler `reset_acknowledgment` (POST `/api/acknowledge/reset/{dag_id}`)
from `src/app.py`. -/
def reset_acknowledgment {σ : Type} (U : Upstream σ) (s : σ)
    (dag_id : String) : ApiResp × σ :=
  let var_key := "twilio_alert_enabled_" ++ dag_id
  match set_airflow_variable U s var_key "true" with
  | (.ok _, s1) =>
    ({ status := 200,
       body := [("success", .bool true),
                ("message", .str ("Alerts re-enabled for DAG '" ++ dag_id ++ "'"))] }, s1)
  | (.error e, s1) =>
    ({ status := 500,
       body := [("success", .bool false), ("error", .str e.str)] }, s1)

/-- A record of one outbound call made against the upstream store. -/
inductive UpCall where
  | patchV (key value : String)
  | postV (key value : String)
  | getV (key : String)
deriving DecidableEq, Repr

/-- Instrument an upstream with a call log: every call appends one `UpCall`
entry, whatever its outcome. -/
def Upstream.logged {σ : Type} (U : Upstream σ) : Upstream (σ × List UpCall) where
  patchVar := fun sl k v =>
    let p := U.patchVar sl.1 k v
    (p.1, (p.2, sl.2 ++ [.patchV k v]))
  postVar := fun sl k v =>
    let p := U.postVar sl.1 k v
    (p.1, (p.2, sl.2 ++ [.postV k v]))
  getVar := fun sl k =>
    let p := U.getVar sl.1 k
    (p.1, (p.2, sl.2 ++ [.getV k]))

/-- The upstream orchestrator's variable store, modelled per the spec's
interface description: GET `/variables/{key}` answers 404 if the variable is
absent, PATCH `/variables/{key}` answers 404 if absent and updates otherwise,
POST `/variables` creates the variable.  Variables are an association list
from key to value. -/
abbrev VarStore := List (String × String)

/-- Insert-or-update a variable in the store. -/
def VarStore.setVar : VarStore → String → String → VarStore
  | [], k, v => [(k, v)]
  | (k1, v1) :: rest, k, v =>
    if k1 = k then (k, v) :: rest else (k1, v1) :: VarStore.setVar rest k v

/-- The reference upstream over `VarStore`; it never raises. -/
def airflowUpstream : Upstream VarStore where
  patchVar := fun s k v =>
    match s.lookup k with
    | some _ => (.ok { status_code := 200, body := [("key", k), ("value", v)] },
                 VarStore.setVar s k v)
    | none => (.ok { status_code := 404, body := [] }, s)
  postVar := fun s k v =>
    (.ok { status_code := 200, body := [("key", k), ("value", v)] },
     VarStore.setVar s k v)
  getVar := fun s k =>
    match s.lookup k with
    | some v => (.ok { status_code := 200, body := [("key", k), ("value", v)] }, s)
    | none => (.ok { status_code := 404, body := [] }, s)

/-- An upstream whose every call raises a connection error; used to exercise
the handlers' exception paths. -/
def downUpstream : Upstream Unit where
  patchVar := fun _ _ _ => (.error (.other "connection error"), ())
  postVar := fun _ _ _ => (.error (.other "connection error"), ())
  getVar := fun _ _ => (.error (.other "connection error"), ())

/-! ### Helper lemmas -/

theorem lookup_setVar_self (s : VarStore) (k v : String) :
    (VarStore.setVar s k v).lookup k = some v := by
  induction s with
  | nil => simp [VarStore.setVar, List.lookup]
  | cons hd tl ih =>
    obtain ⟨k1, v1⟩ := hd
    by_cases h : k1 = k
    · simp [VarStore.setVar, h, List.lookup]
    · have hb : (k == k1) = false := by
        simp only [beq_eq_false_iff_ne, ne_eq]
        exact fun hk => h hk.symm
      simp [VarStore.setVar, h, List.lookup, hb, ih]

theorem set_airflow_variable_airflow (s : VarStore) (k v : String) :
    set_airflow_variable airflowUpstream s k v =
      (.ok [("key", k), ("value", v)], VarStore.setVar s k v) := by
  cases h : s.lookup k with
  | none => simp [set_airflow_variable, airflowUpstream, raise_for_status_fails, h]
  | some w => simp [set_airflow_variable, airflowUpstream, raise_for_status_fails, h]

/-- The state component of `acknowledge_post` does not depend on `task_id`:
it is the input state on a falsy `dag_id`, and otherwise the state after
`set_airflow_variable` on the key built from `dag_id` alone. -/
theorem acknowledge_post_snd {σ : Type} (U : Upstream σ) (s : σ) (req : AckBody) :
    (acknowledge_post U s req).2 =
      if pyFalsy req.dag_id then s
      else (set_airflow_variable U s
        ("twilio_alert_enabled_" ++ req.dag_id.getD "") "false").2 := by
  by_cases h : pyFalsy req.dag_id
  · simp [acknowledge_post, h]
  · simp only [acknowledge_post, h, if_false, Bool.false_eq_true]
    cases hs : set_airflow_variable U s
        ("twilio_alert_enabled_" ++ req.dag_id.getD "") "false" with
    | mk r s1 => cases r <;> simp [hs]

/-- Same for the GET variant: the state component depends only on `dag_id`. -/
theorem acknowledge_get_snd {σ : Type} (U : Upstream σ) (s : σ)
    (dag_id task_id : Option String) (now : String) :
    (acknowledge_get U s dag_id task_id now).2 =
      if pyFalsy dag_id then s
      else (set_airflow_variable U s
        ("twilio_alert_enabled_" ++ dag_id.getD "") "false").2 := by
  by_cases h : pyFalsy dag_id
  · simp [acknowledge_get, h]
  · simp only [acknowledge_get, h, if_false, Bool.false_eq_true]
    cases hs : set_airflow_variable U s
        ("twilio_alert_enabled_" ++ dag_id.getD "") "false" with
    | mk r s1 => cases r <;> simp [hs]

/-- Every call logged by `set_airflow_variable` is a PATCH or a POST of the
given key and value. -/
theorem set_airflow_variable_log {σ : Type} (U : Upstream σ) (s : σ)
    (k v : String) :
    ∀ c ∈ (set_airflow_variable (U.logged) (s, []) k v).2.2,
      c = UpCall.patchV k v ∨ c = UpCall.postV k v := by
  intro c hc
  cases hp : U.patchVar s k v with
  | mk r1 s1 =>
    cases r1 with
    | error e =>
      simp [set_airflow_variable, Upstream.logged, hp] at hc
      simp [hc]
    | ok r =>
      by_cases h404 : r.status_code = 404
      · cases hq : U.postVar s1 k v with
        | mk r2 s2 =>
          cases r2 with
          | error e =>
            simp [set_airflow_variable, Upstream.logged, hp, h404, hq] at hc
            rcases hc with hc | hc <;> simp [hc]
          | ok r2 =>
            by_cases hf : raise_for_status_fails r2 <;>
              · simp [set_airflow_variable, Upstream.logged, hp, h404, hq, hf] at hc
                rcases hc with hc | hc <;> simp [hc]
      · by_cases hf : raise_for_status_fails r <;>
          · simp [set_airflow_variable, Upstream.logged, hp, h404, hf] at hc
            simp [hc]

/-- Reading the `"value"` field of a variable body `{"key": x, "value": v}`
yields `v`. -/
theorem lookup_value_body (x v : String) :
    List.lookup "value" [("key", x), ("value", v)] = some v := by
  have h1 : ("value" == "key") = false := by decide
  have h2 : ("value" == "value") = true := by decide
  simp [List.lookup, h1, h2]

/-! ### Claims -/

/-- C1: `set_airflow_variable` first issues the PATCH-style update; it issues
the POST-style create, with the same key and value, if and only if the update
answered 404; and the operation returns success exactly when the update
succeeded (non-error status) or the fallback create succeeded. -/
theorem set_flag_update_or_create_fallback {σ : Type} (U : Upstream σ) (s : σ)
    (k v : String) (r1 : HttpResp) (s1 : σ)
    (res2 : Except PyExn HttpResp) (s2 : σ)
    (hp : U.patchVar s k v = (.ok r1, s1))
    (hq : U.postVar s1 k v = (res2, s2)) :
    ((set_airflow_variable (U.logged) (s, []) k v).2.2 =
        [UpCall.patchV k v] ++
          (if r1.status_code = 404 then [UpCall.postV k v] else []))
    ∧ ((∃ b, (set_airflow_variable U s k v).1 = Except.ok b) ↔
        (raise_for_status_fails r1 = false ∨
          (r1.status_code = 404 ∧
            ∃ r2, res2 = Except.ok r2 ∧ raise_for_status_fails r2 = false))) := by
  constructor
  · by_cases h404 : r1.status_code = 404
    · cases res2 with
      | error e =>
        simp [set_airflow_variable, Upstream.logged, hp, hq, h404]
      | ok r2 =>
        by_cases hf : raise_for_status_fails r2 <;>
          simp [set_airflow_variable, Upstream.logged, hp, hq, h404, hf]
    · by_cases hf : raise_for_status_fails r1 <;>
        simp [set_airflow_variable, Upstream.logged, hp, h404, hf]
  · by_cases h404 : r1.status_code = 404
    · have hf1 : raise_for_status_fails r1 = true := by
        simp [raise_for_status_fails, h404]
      cases res2 with
      | error e =>
        simp [set_airflow_variable, hp, hq, h404, hf1]
      | ok r2 =>
        by_cases hf : raise_for_status_fails r2 <;>
          simp [set_airflow_variable, hp, hq, h404, hf1, hf]
    · by_cases hf : raise_for_status_fails r1 <;>
        simp [set_airflow_variable, hp, h404, hf]

/-- Witness for C1 at a concrete input: on an empty store the update answers
404, the create is issued with the same key and value, and the overall
operation succeeds. -/
theorem set_flag_update_or_create_fallback_witness :
    ((set_airflow_variable (airflowUpstream.logged) (([] : VarStore), ([] : List UpCall)) "k" "false").2.2 =
        [UpCall.patchV "k" "false", UpCall.postV "k" "false"])
    ∧ (∃ b, (set_airflow_variable airflowUpstream [] "k" "false").1 = Except.ok b) := by
  have h := set_flag_update_or_create_fallback airflowUpstream [] "k" "false"
      { status_code := 404, body := [] } []
      (.ok { status_code := 200, body := [("key", "k"), ("value", "false")] })
      [("k", "false")] rfl rfl
  refine ⟨by simpa using h.1, ?_⟩
  rw [h.2]
  exact Or.inr ⟨rfl, _, rfl, rfl⟩

/-- C3: a POST `/api/acknowledge` whose body has no `dag_id` yields HTTP 400
with the machine-readable error body, leaves the upstream state untouched and
issues zero upstream calls. -/
theorem acknowledge_post_missing_dag_id_400_no_upstream {σ : Type}
    (U : Upstream σ) (s : σ) (t : Option String) :
    acknowledge_post (U.logged) (s, []) { dag_id := none, task_id := t } =
      ({ status := 400,
         body := [("status", .str "error"), ("message", .str "dag_id is required")] },
       (s, [])) := by
  simp [acknowledge_post, pyFalsy]

/-- C10: an empty-string `dag_id` is treated exactly like an absent one by
both acknowledge handlers: same HTTP 400 response and zero upstream calls. -/
theorem acknowledge_empty_dag_id_like_missing {σ : Type} (U : Upstream σ)
    (s : σ) (t : Option String) (now : String) :
    (acknowledge_post (U.logged) (s, []) { dag_id := some "", task_id := t } =
        acknowledge_post (U.logged) (s, []) { dag_id := none, task_id := t })
    ∧ ((acknowledge_post (U.logged) (s, []) { dag_id := some "", task_id := t }).1.status = 400)
    ∧ ((acknowledge_post (U.logged) (s, []) { dag_id := some "", task_id := t }).2.2 = [])
    ∧ (acknowledge_get (U.logged) (s, []) (some "") t now =
        acknowledge_get (U.logged) (s, []) none t now)
    ∧ ((acknowledge_get (U.logged) (s, []) (some "") t now).1.status = 400)
    ∧ ((acknowledge_get (U.logged) (s, []) (some "") t now).2.2 = []) := by
  refine ⟨?_, ?_, ?_, ?_, ?_, ?_⟩ <;>
    simp [acknowledge_post, acknowledge_get, pyFalsy]

/-- C4: when the upstream read answers 404, the status handler reports the
default state `alerts_enabled = true`, `acknowledged = false` with HTTP 200,
not an error. -/
theorem status_not_found_default_enabled {σ : Type} (U : Upstream σ) (s : σ)
    (d : String) (r : HttpResp) (s1 : σ)
    (hg : U.getVar s ("twilio_alert_enabled_" ++ d) = (.ok r, s1))
    (h404 : r.status_code = 404) :
    (get_acknowledgment_status U s d).1 =
      { status := 200,
        body := [("dag_id", .str d), ("alerts_enabled", .bool true),
                 ("acknowledged", .bool false)] } := by
  simp [get_acknowledgment_status, hg, h404]

/-- Witness for C4: on the empty store the flag is absent, the read answers
404, and status reports the default state. -/
theorem status_not_found_default_enabled_witness :
    airflowUpstream.getVar [] ("twilio_alert_enabled_" ++ "d") =
      (.ok { status_code := 404, body := [] }, []) ∧
    (get_acknowledgment_status airflowUpstream [] "d").1 =
      { status := 200,
        body := [("dag_id", .str "d"), ("alerts_enabled", .bool true),
                 ("acknowledged", .bool false)] } :=
  ⟨rfl, status_not_found_default_enabled airflowUpstream [] "d"
      { status_code := 404, body := [] } [] rfl rfl⟩

/-- Case-insensitive equality of strings, Python style (`a.lower() == b.lower()`). -/
def caseInsensitiveEq (a b : String) : Bool :=
  strToLower a == strToLower b

/-- C5: when the flag exists upstream (read succeeds with a stored value),
`alerts_enabled` is the case-insensitive comparison of the stored value with
`"true"`, and `acknowledged` is always its negation. -/
theorem status_existing_flag_case_insensitive {σ : Type} (U : Upstream σ)
    (s : σ) (d : String) (r : HttpResp) (s1 : σ) (v : String)
    (hg : U.getVar s ("twilio_alert_enabled_" ++ d) = (.ok r, s1))
    (h404 : r.status_code ≠ 404)
    (hok : raise_for_status_fails r = false)
    (hv : r.body.lookup "value" = some v) :
    (get_acknowledgment_status U s d).1 =
      { status := 200,
        body := [("dag_id", .str d),
                 ("alerts_enabled", .bool (caseInsensitiveEq v "true")),
                 ("acknowledged", .bool (!(caseInsensitiveEq v "true")))] } := by
  have hl : strToLower "true" = "true" := by decide
  simp [get_acknowledgment_status, hg, h404, hok, lookupD, hv,
    caseInsensitiveEq, hl]

/-- Witness for C5: with the flag stored as `"False"`, status reports
`alerts_enabled = false`, `acknowledged = true` (case-insensitive read). -/
theorem status_existing_flag_case_insensitive_witness :
    airflowUpstream.getVar [("twilio_alert_enabled_d", "False")]
        ("twilio_alert_enabled_" ++ "d") =
      (.ok { status_code := 200,
             body := [("key", "twilio_alert_enabled_d"), ("value", "False")] },
       [("twilio_alert_enabled_d", "False")]) ∧
    (get_acknowledgment_status airflowUpstream
        [("twilio_alert_enabled_d", "False")] "d").1 =
      { status := 200,
        body := [("dag_id", .str "d"), ("alerts_enabled", .bool false),
                 ("acknowledged", .bool true)] } := by
  have h := status_existing_flag_case_insensitive airflowUpstream
      [("twilio_alert_enabled_d", "False")] "d"
      { status_code := 200,
        body := [("key", "twilio_alert_enabled_d"), ("value", "False")] }
      [("twilio_alert_enabled_d", "False")] "False"
      rfl (by decide) (by decide) (by decide)
  refine ⟨rfl, ?_⟩
  rw [h]
  decide

/-- C2: acknowledging a valid `dag_id` then reading its status (with no
intervening writes) yields `alerts_enabled = false`, `acknowledged = true`:
the acknowledge writes the literal `"false"` under
`twilio_alert_enabled_{dag_id}`, which the status read then finds. -/
theorem acknowledge_then_status_disabled (s : VarStore) (d : String)
    (t : Option String) (hd : pyFalsy (some d) = false) :
    ((acknowledge_post airflowUpstream s { dag_id := some d, task_id := t }).1.status = 200)
    ∧ ((acknowledge_post airflowUpstream s { dag_id := some d, task_id := t }).2.lookup
        ("twilio_alert_enabled_" ++ d) = some "false")
    ∧ ((get_acknowledgment_status airflowUpstream
          (acknowledge_post airflowUpstream s { dag_id := some d, task_id := t }).2 d).1 =
        { status := 200,
          body := [("dag_id", .str d), ("alerts_enabled", .bool false),
                   ("acknowledged", .bool true)] }) := by
  have hset := set_airflow_variable_airflow s ("twilio_alert_enabled_" ++ d) "false"
  have hs2 : (acknowledge_post airflowUpstream s { dag_id := some d, task_id := t }).2 =
      VarStore.setVar s ("twilio_alert_enabled_" ++ d) "false" := by
    simp [acknowledge_post, hd, hset]
  have hfal : ¬ strToLower "false" = "true" := by decide
  refine ⟨by simp [acknowledge_post, hd, hset], ?_, ?_⟩
  · rw [hs2]; exact lookup_setVar_self s _ _
  · rw [hs2]
    simp [get_acknowledgment_status, airflowUpstream, lookup_setVar_self,
      lookupD, raise_for_status_fails, lookup_value_body, hfal]

/-- Witness for C2 on the empty store with `dag_id = "d"`. -/
theorem acknowledge_then_status_disabled_witness :
    pyFalsy (some "d") = false ∧
    ((acknowledge_post airflowUpstream [] { dag_id := some "d", task_id := none }).1.status = 200)
    ∧ ((get_acknowledgment_status airflowUpstream
          (acknowledge_post airflowUpstream [] { dag_id := some "d", task_id := none }).2 "d").1 =
        { status := 200,
          body := [("dag_id", .str "d"), ("alerts_enabled", .bool false),
                   ("acknowledged", .bool true)] }) := by
  have h := acknowledge_then_status_disabled [] "d" none rfl
  exact ⟨rfl, h.1, h.2.2⟩

/-- C6: reset writes the literal `"true"`, so a reset after an acknowledge
restores `alerts_enabled = true` on a subsequent status read, answering
HTTP 200 with a confirmation body; an upstream failure of the write is
answered with HTTP 500 and the error detail. -/
theorem reset_restores_enabled :
    (∀ (s : VarStore) (d : String) (t : Option String),
      pyFalsy (some d) = false →
      (reset_acknowledgment airflowUpstream
          (acknowledge_post airflowUpstream s { dag_id := some d, task_id := t }).2 d).1 =
        { status := 200,
          body := [("success", .bool true),
                   ("message", .str ("Alerts re-enabled for DAG '" ++ d ++ "'"))] } ∧
      (reset_acknowledgment airflowUpstream
          (acknowledge_post airflowUpstream s { dag_id := some d, task_id := t }).2 d).2.lookup
          ("twilio_alert_enabled_" ++ d) = some "true" ∧
      (get_acknowledgment_status airflowUpstream
          (reset_acknowledgment airflowUpstream
            (acknowledge_post airflowUpstream s { dag_id := some d, task_id := t }).2 d).2 d).1 =
        { status := 200,
          body := [("dag_id", .str d), ("alerts_enabled", .bool true),
                   ("acknowledged", .bool false)] })
    ∧ (∀ (σ : Type) (U : Upstream σ) (s : σ) (d : String) (e : PyExn) (s1 : σ),
        set_airflow_variable U s ("twilio_alert_enabled_" ++ d) "true" = (.error e, s1) →
        reset_acknowledgment U s d =
          ({ status := 500,
             body := [("success", .bool false), ("error", .str e.str)] }, s1)) := by
  constructor
  · intro s d t hd
    have hsetT := set_airflow_variable_airflow
      ((acknowledge_post airflowUpstream s { dag_id := some d, task_id := t }).2)
      ("twilio_alert_enabled_" ++ d) "true"
    have hr2 : (reset_acknowledgment airflowUpstream
        (acknowledge_post airflowUpstream s { dag_id := some d, task_id := t }).2 d).2 =
        VarStore.setVar
          (acknowledge_post airflowUpstream s { dag_id := some d, task_id := t }).2
          ("twilio_alert_enabled_" ++ d) "true" := by
      simp [reset_acknowledgment, hsetT]
    have htru : strToLower "true" = "true" := by decide
    refine ⟨by simp [reset_acknowledgment, hsetT], ?_, ?_⟩
    · rw [hr2]; exact lookup_setVar_self _ _ _
    · rw [hr2]
      simp [get_acknowledgment_status, airflowUpstream, lookup_setVar_self,
        lookupD, raise_for_status_fails, lookup_value_body, htru]
  · intro σ U s d e s1 h
    simp [reset_acknowledgment, h]

/-- Witness for C6: reset after acknowledge on the empty store, plus the
failure path on an unreachable upstream. -/
theorem reset_restores_enabled_witness :
    pyFalsy (some "d") = false ∧
    (get_acknowledgment_status airflowUpstream
        (reset_acknowledgment airflowUpstream
          (acknowledge_post airflowUpstream [] { dag_id := some "d", task_id := none }).2 "d").2 "d").1 =
      { status := 200,
        body := [("dag_id", .str "d"), ("alerts_enabled", .bool true),
                 ("acknowledged", .bool false)] } ∧
    set_airflow_variable downUpstream () ("twilio_alert_enabled_" ++ "d") "true" =
      (.error (.other "connection error"), ()) ∧
    reset_acknowledgment downUpstream () "d" =
      ({ status := 500,
         body := [("success", .bool false),
                  ("error", .str (PyExn.other "connection error").str)] }, ()) := by
  refine ⟨rfl, ((reset_restores_enabled.1) [] "d" none rfl).2.2, rfl, ?_⟩
  exact reset_restores_enabled.2 Unit downUpstream () "d"
    (.other "connection error") () rfl

/-- C7: a POST acknowledge with a present, non-empty `dag_id` whose upstream
write succeeds answers HTTP 200 with `status = "success"`, a confirmation
message, and the caller's `dag_id` and `task_id` echoed back, `task_id`
defaulting to `"unknown"` when absent. -/
theorem acknowledge_post_success_echo {σ : Type} (U : Upstream σ) (s : σ)
    (d : String) (t : Option String) (b : List (String × String)) (s1 : σ)
    (hd : pyFalsy (some d) = false)
    (hset : set_airflow_variable U s ("twilio_alert_enabled_" ++ d) "false" =
      (.ok b, s1)) :
    acknowledge_post U s { dag_id := some d, task_id := t } =
      ({ status := 200,
         body := [("status", .str "success"),
                  ("message", .str ("Alerts paused for DAG '" ++ d ++
                    "' based on acknowledgment from task '" ++ t.getD "unknown" ++ "'.")),
                  ("dag_id", .str d),
                  ("task_id", .str (t.getD "unknown"))] }, s1) := by
  simp [acknowledge_post, hd, hset]

/-- Witness for C7: on the empty store with no `task_id`, the echoed
`task_id` is `"unknown"`. -/
theorem acknowledge_post_success_echo_witness :
    pyFalsy (some "d") = false ∧
    set_airflow_variable airflowUpstream [] ("twilio_alert_enabled_" ++ "d") "false" =
      (.ok [("key", "twilio_alert_enabled_" ++ "d"), ("value", "false")],
        [("twilio_alert_enabled_" ++ "d", "false")]) ∧
    acknowledge_post airflowUpstream [] { dag_id := some "d", task_id := none } =
      ({ status := 200,
         body := [("status", .str "success"),
                  ("message", .str ("Alerts paused for DAG '" ++ "d" ++
                    "' based on acknowledgment from task '" ++ "unknown" ++ "'.")),
                  ("dag_id", .str "d"),
                  ("task_id", .str "unknown")] },
        [("twilio_alert_enabled_" ++ "d", "false")]) := by
  refine ⟨rfl, rfl, ?_⟩
  exact acknowledge_post_success_echo airflowUpstream [] "d" none
    [("key", "twilio_alert_enabled_" ++ "d"), ("value", "false")]
    [("twilio_alert_enabled_" ++ "d", "false")] rfl rfl

/-- C8 counterexample: on the same unreachable upstream, the POST acknowledge
handler and the status handler both answer 500, but their error bodies have
different shapes (keys `status`/`message` versus `success`/`error`), so the
error-body shape is not the same across handlers. -/
theorem handler_error_shapes_differ :
    (acknowledge_post downUpstream () { dag_id := some "d", task_id := none }).1.status = 500 ∧
    (get_acknowledgment_status downUpstream () "d").1.status = 500 ∧
    (acknowledge_post downUpstream () { dag_id := some "d", task_id := none }).1.body.map Prod.fst ≠
      (get_acknowledgment_status downUpstream () "d").1.body.map Prod.fst := by
  refine ⟨rfl, rfl, by decide⟩

/-- C8 (amended): every exception propagating out of an upstream call inside
a handler is caught at the handler boundary and converted to an HTTP 500
response — never left unhandled — though the error-body shape differs per
handler: `{status, message}` for POST acknowledge, an HTML error page for GET
acknowledge, `{success, error}` for status and reset. -/
theorem handler_errors_become_500 {σ : Type} (U : Upstream σ) (s : σ)
    (d : String) (t : Option String) (now : String)
    (e1 e2 e3 : PyExn) (s1 s2 s3 : σ)
    (hf : set_airflow_variable U s ("twilio_alert_enabled_" ++ d) "false" = (.error e1, s1))
    (ht : set_airflow_variable U s ("twilio_alert_enabled_" ++ d) "true" = (.error e2, s2))
    (hg : U.getVar s ("twilio_alert_enabled_" ++ d) = (.error e3, s3))
    (hd : pyFalsy (some d) = false) :
    acknowledge_post U s { dag_id := some d, task_id := t } =
      ({ status := 500,
         body := [("status", .str "error"), ("message", .str e1.str)] }, s1) ∧
    acknowledge_get U s (some d) t now =
      ({ page := { success := false, dag_id := none, task_id := none,
                   timestamp := none, error := some e1.str },
         status := 500 }, s1) ∧
    get_acknowledgment_status U s d =
      ({ status := 500,
         body := [("success", .bool false), ("error", .str e3.str)] }, s3) ∧
    reset_acknowledgment U s d =
      ({ status := 500,
         body := [("success", .bool false), ("error", .str e2.str)] }, s2) := by
  refine ⟨?_, ?_, ?_, ?_⟩
  · simp [acknowledge_post, hd, hf]
  · simp [acknowledge_get, hd, hf]
  · simp [get_acknowledgment_status, hg]
  · simp [reset_acknowledgment, ht]

/-- Witness for the amended C8 on the unreachable upstream: all four handlers
answer 500. -/
theorem handler_errors_become_500_witness :
    (acknowledge_post downUpstream () { dag_id := some "d", task_id := none }).1.status = 500 ∧
    (acknowledge_get downUpstream () (some "d") none "now").1.status = 500 ∧
    (get_acknowledgment_status downUpstream () "d").1.status = 500 ∧
    (reset_acknowledgment downUpstream () "d").1.status = 500 := by
  have h := handler_errors_become_500 downUpstream () "d" none "now"
    (.other "connection error") (.other "connection error") (.other "connection error")
    () () () rfl rfl rfl rfl
  exact ⟨by rw [h.1], by rw [h.2.1], by rw [h.2.2.1], by rw [h.2.2.2]⟩

/-- C9: two acknowledge requests (POST or GET variant) identical except for
`task_id` produce the identical upstream interaction — same final upstream
state and same call log — and every call in that log writes the key
`twilio_alert_enabled_{dag_id}` with the value `"false"`. -/
theorem acknowledge_task_id_irrelevant_upstream {σ : Type}
    (U : Upstream σ) (s : σ) (d t1 t2 : Option String) (now : String) :
    ((acknowledge_post (U.logged) (s, []) { dag_id := d, task_id := t1 }).2 =
      (acknowledge_post (U.logged) (s, []) { dag_id := d, task_id := t2 }).2)
    ∧ ((acknowledge_get (U.logged) (s, []) d t1 now).2 =
        (acknowledge_get (U.logged) (s, []) d t2 now).2)
    ∧ ((acknowledge_post (U.logged) (s, []) { dag_id := d, task_id := t1 }).2 =
        (acknowledge_get (U.logged) (s, []) d t1 now).2)
    ∧ (∀ c ∈ (acknowledge_post (U.logged) (s, []) { dag_id := d, task_id := t1 }).2.2,
        ∃ dv, d = some dv ∧
          (c = UpCall.patchV ("twilio_alert_enabled_" ++ dv) "false" ∨
           c = UpCall.postV ("twilio_alert_enabled_" ++ dv) "false")) := by
  refine ⟨?_, ?_, ?_, ?_⟩
  · rw [acknowledge_post_snd, acknowledge_post_snd]
  · rw [acknowledge_get_snd, acknowledge_get_snd]
  · rw [acknowledge_post_snd, acknowledge_get_snd]
  · intro c hc
    by_cases hfd : pyFalsy d = true
    · rw [acknowledge_post_snd] at hc
      simp [hfd] at hc
    · cases d with
      | none => simp [pyFalsy] at hfd
      | some dv =>
        refine ⟨dv, rfl, ?_⟩
        rw [acknowledge_post_snd] at hc
        simp only [hfd, if_false, Bool.false_eq_true, Option.getD_some] at hc
        exact set_airflow_variable_log U s _ _ c hc

/-- Witness for C9 at concrete inputs: two POST requests differing only in
`task_id` leave the same upstream state and log, and the logged PATCH call
targets the flag key with value `"false"`. -/
theorem acknowledge_task_id_irrelevant_upstream_witness :
    ((acknowledge_post (airflowUpstream.logged) (([] : VarStore), ([] : List UpCall))
        { dag_id := some "d", task_id := none }).2 =
      (acknowledge_post (airflowUpstream.logged) ([], [])
        { dag_id := some "d", task_id := some "t" }).2)
    ∧ (∃ dv, (some "d" : Option String) = some dv ∧
        (UpCall.patchV "twilio_alert_enabled_d" "false" =
            UpCall.patchV ("twilio_alert_enabled_" ++ dv) "false" ∨
         UpCall.patchV "twilio_alert_enabled_d" "false" =
            UpCall.postV ("twilio_alert_enabled_" ++ dv) "false")) := by
  have h := acknowledge_task_id_irrelevant_upstream airflowUpstream []
    (some "d") none (some "t") "now"
  exact ⟨h.1, h.2.2.2 (UpCall.patchV "twilio_alert_enabled_d" "false") (by decide)⟩

end TeamAck
